import Mathlib

/-!
Shallow embedding of the SwearBot repository (a voice-chat audio bot) for
specification checking.  The embedding covers:

* the real-time PCM mixer in
  src/balaambot/audio_handlers/multi_audio_source.py
  (class MultiAudioSource and its Track records), and
* the YouTube acquisition cache in
  src/balaambot/youtube/audio.py and src/balaambot/youtube/utils.py.

Python integers are modelled as Lean Int (sample arrays hold int16 values,
accumulators are unbounded with explicit range hypotheses where the Python
array type would raise OverflowError), floats at the points the claims
exercise are modelled as exact rationals, fallible code returns Except, and
the filesystem cache is explicit state threaded through the functions.
-/

set_option linter.unusedVariables false

set_option maxRecDepth 8000

deriving instance DecidableEq for Except

namespace MultiAudioSource

/-- Constants of class MultiAudioSource (multi_audio_source.py lines 71-85).
CHUNK_SIZE is int(48000 * 2 * 2 * 0.02) = 3840 bytes; each output sample is
two bytes, so one chunk holds 1920 int16 samples. -/
def SAMPLE_RATE : Nat := 48000

def CHANNELS : Nat := 2

def CHUNK_DURATION_NUM : Nat := 2

def CHUNK_DURATION_DEN : Nat := 100

def BYTE_SIZE : Nat := 2

def CHUNK_SIZE : Nat :=
  SAMPLE_RATE * CHANNELS * BYTE_SIZE * CHUNK_DURATION_NUM / CHUNK_DURATION_DEN

/-- Number of int16 slots per chunk: CHUNK_SIZE // 2 in the Python source. -/
def chunkSamples : Nat := CHUNK_SIZE / 2

def MIN_VOLUME : Int := -32768

def MAX_VOLUME : Int := 32767

/-- TARGET_VOLUME = 0.997 (multi_audio_source.py line 83), exact as a
rational. -/
def TARGET_VOLUME : ℚ := 997 / 1000

/-- A Track record (multi_audio_source.py lines 46-61).  The uuid id and the
display name play no role in the mixing arithmetic; the callbacks are
modelled by the outcome of invoking them (Except.error is a callback that
raises). -/
structure Track where
  samples : List Int
  pos : Nat
  normFactor : Option ℚ := none
  beforePlay : Option (Except String Unit) := none
  afterPlay : Option (Except String Unit) := none
deriving Repr, DecidableEq

/-- Mixer state (fields of MultiAudioSource set in __init__): the sustained
music tracks, the overlay sound effects, the _stopped flag and the
normalise_audio switch.  The per-track normalisation factors table is folded
into each Track as its normFactor field. -/
structure Mixer where
  tracks : List Track
  sfx : List Track
  stopped : Bool
  normaliseAudio : Bool
deriving Repr, DecidableEq

/-- Truncating conversion from an exact rational to Int: the int() call of
Python rounds toward zero. -/
def truncQ (q : ℚ) : Int := q.num.tdiv q.den

/-- Per-sample clamp used inside _mix_samples (line 283):
max(MIN_VOLUME, min(int(s * norm_factor), MAX_VOLUME)). -/
def clamp16 (x : Int) : Int := max MIN_VOLUME (min x MAX_VOLUME)

/-- Clamp used in read (lines 321-327), written as the if/elif/else of the
source. -/
def outClamp (val : Int) : Int :=
  if val > MAX_VOLUME then MAX_VOLUME
  else if val < MIN_VOLUME then MIN_VOLUME
  else val

/-- Effective normalisation factor of a track inside _mix_samples
(lines 275-277): 1 unless normalise_audio is set and a factor was stored for
the track id. -/
def effFactor (normalise : Bool) (t : Track) : ℚ :=
  if normalise && t.normFactor.isSome then t.normFactor.getD 1 else 1

/-- Sample of the zero-padded slice samples[pos:pos+chunkSamples] at offset
i (lines 266-279): positions past the end of the list read the zero padding
appended by samples.extend(pad). -/
def paddedSample (t : Track) (i : Nat) : Int := t.samples.getD (t.pos + i) 0

/-- Contribution of one track to accumulator slot i (lines 280-284): the
sample is scaled by the normalisation factor, truncated to int, and clamped
to the int16 range before being added to the 32-bit total. -/
def contribution (normalise : Bool) (t : Track) (i : Nat) : Int :=
  clamp16 (truncQ ((paddedSample t i : ℚ) * effFactor normalise t))

/-- Accumulator slot i after the loop of _mix_samples: the sum of every
active track and sfx contribution, in list order (self._tracks + self._sfx).
The Python accumulator is an int32 array that raises OverflowError when a
partial sum leaves that range; theorems that evaluate the mix therefore
carry a track-count bound keeping every partial sum inside int32. -/
def mixTotal (m : Mixer) (i : Nat) : Int :=
  ((m.tracks ++ m.sfx).map (fun t => contribution m.normaliseAudio t i)).sum

/-- End position of a track after one mixing pass: pos + CHUNK_SIZE // 2. -/
def trackEnd (t : Track) : Nat := t.pos + chunkSamples

/-- A track is dropped by the pass when end >= len(samples) (line 287),
where samples has been padded up to end whenever end exceeded the original
length, so the test is equivalent to len(original samples) <= end. -/
def trackFinished (t : Track) : Bool := decide (t.samples.length ≤ trackEnd t)

/-- State of a surviving track after the pass: padding (a no-op for a
surviving track, since end < len) and the advanced cursor. -/
def advanceTrack (t : Track) : Track :=
  { t with
    samples := t.samples ++ List.replicate (trackEnd t - t.samples.length) 0
    pos := trackEnd t }

/-- Sustained tracks surviving one _mix_samples pass (lines 292-299). -/
def mixNewTracks (m : Mixer) : List Track :=
  (m.tracks.filter (fun t => !trackFinished t)).map advanceTrack

/-- Overlay sfx surviving one _mix_samples pass (lines 292-300). -/
def mixNewSfx (m : Mixer) : List Track :=
  (m.sfx.filter (fun t => !trackFinished t)).map advanceTrack

/-- One call to MultiAudioSource.read (lines 303-329).  When the mixer is
stopped the Python method returns the empty byte string b"" (modelled as the
empty sample list); otherwise it mixes one pass and emits the clamped
accumulator as chunkSamples int16 values (CHUNK_SIZE bytes).  The returned
Mixer carries the track-state mutation done by _mix_samples. -/
def read (m : Mixer) : List Int × Mixer :=
  if m.stopped then ([], m)
  else
    ((List.range chunkSamples).map (fun i => outClamp (mixTotal m i)),
     { m with tracks := mixNewTracks m, sfx := mixNewSfx m })

/-- MultiAudioSource.pause (lines 175-179). -/
def pause (m : Mixer) : Mixer := { m with stopped := true }

/-- MultiAudioSource.resume (lines 169-173). -/
def resume (m : Mixer) : Mixer := { m with stopped := false }

/-- MultiAudioSource.clear_sfx (lines 337-342): empties the overlay list and
touches nothing else. -/
def clear_sfx (m : Mixer) : Mixer := { m with sfx := [] }

/-- MultiAudioSource.clear_tracks (lines 344-350): empties the sustained
list and then calls pause. -/
def clear_tracks (m : Mixer) : Mixer := pause { m with tracks := [] }

/-- MultiAudioSource.skip_current_tracks loop body (lines 472-485): each
popped track has its cursor forced to len(samples); if it carries an
after_play callback the callback is invoked synchronously and its outcome
(normal return or caught exception) is appended to the log.  The loop is
total: a raising callback is caught and the loop continues with the rest. -/
def skipLoop : List Track → List Track × List (Except String Unit)
  | [] => ([], [])
  | t :: rest =>
    let t2 := { t with pos := t.samples.length }
    let logs :=
      match t2.afterPlay with
      | some r => [r]
      | none => []
    let (ts, ls) := skipLoop rest
    (t2 :: ts, logs ++ ls)

/-- MultiAudioSource.skip_current_tracks (lines 466-486): drains the
sustained list, returning the new mixer state, the drained tracks (cursor at
the end) and the log of callback outcomes. -/
def skip_current_tracks (m : Mixer) :
    Mixer × List Track × List (Except String Unit) :=
  ({ m with tracks := [] }, skipLoop m.tracks)

/-- Fixture: a stopped mixer with no tracks, used by concrete instances. -/
def pausedMixer : Mixer :=
  { tracks := [], sfx := [], stopped := true, normaliseAudio := false }

/-- Fixture: a playing mixer with two sustained tracks, the first carrying
an after_play callback that raises and the second a normal callback. -/
def skipFixture : Mixer :=
  { tracks := [{ samples := [1, 2, 3], pos := 0,
                 afterPlay := some (Except.error "boom") },
               { samples := [4], pos := 0,
                 afterPlay := some (Except.ok ()) }],
    sfx := [], stopped := false, normaliseAudio := false }

/-- Fixture family for the mixing-sum property: a track with constant
sample value v and length l, cursor at the start, no stored factor. -/
def constTrack (v : Int) (l : Nat) : Track :=
  { samples := List.replicate l v, pos := 0 }

/-- Mixer holding one constant track per (value, length) pair, unpaused,
with normalisation disabled so that every effective factor is 1. -/
def constMixer (tvs : List (Int × Nat)) : Mixer :=
  { tracks := tvs.map (fun p => constTrack p.1 p.2), sfx := [],
    stopped := false, normaliseAudio := false }

/-- Normalisation errors: the Python computation can raise ZeroDivisionError
(dividing by a zero factor or taking a mean over zero samples) or
ValueError (max() of an empty sequence). -/
inductive NormError where
  | zeroDivision
  | emptyMax
deriving Repr, DecidableEq

/-- Model of math.sqrt on nonnegative rationals.  The claims only use its
zero set, which is exact: sqrtQ q = 0 iff q ≤ 0, and sqrtQ q > 0 for q > 0;
values at other arguments are a rational stand-in for the float result. -/
def sqrtQ (q : ℚ) : ℚ := (Nat.sqrt q.num.toNat : ℚ) / (Nat.sqrt q.den : ℚ)

/-- MultiAudioSource._compute_normalisation_factor (lines 181-220) as a
function of the approach string and the sample list.  The source runs two
independent if blocks (not elif): approach "max" sets the factor to the
peak absolute amplitude, approach "std_dev" sets it to three standard
deviations; any other string leaves the initial factor 1.0.  The final step
divides TARGET_VOLUME * MAX_VOLUME by the factor with no guard, so a zero
factor raises ZeroDivisionError. -/
def compute_normalisation_factor (approach : String) (samples : List Int) :
    Except NormError ℚ :=
  let factor0 : ℚ := 1
  let step1 : Except NormError ℚ :=
    if approach = "max" then
      match (samples.map (fun s => ((s.natAbs : Int) : ℚ))).max? with
      | none => Except.error NormError.emptyMax
      | some m => Except.ok m
    else Except.ok factor0
  match step1 with
  | Except.error e => Except.error e
  | Except.ok factor1 =>
    let step2 : Except NormError ℚ :=
      if approach = "std_dev" then
        if samples.length = 0 then Except.error NormError.zeroDivision
        else
          let mean : ℚ := (samples.map (fun s => (s : ℚ))).sum / samples.length
          let mu : ℚ := (samples.map (fun s => ((s : ℚ) - mean) ^ 2)).sum
          Except.ok (3 * sqrtQ (mu / samples.length))
      else Except.ok factor1
    match step2 with
    | Except.error e => Except.error e
    | Except.ok factor2 =>
      if factor2 = 0 then Except.error NormError.zeroDivision
      else Except.ok (TARGET_VOLUME * (MAX_VOLUME : ℚ) / factor2)

end MultiAudioSource

namespace YoutubeUtils

/-!
Embedding of src/balaambot/youtube/utils.py and src/balaambot/youtube/audio.py.
Python exceptions become the PyErr sum (messages omitted); the on-disk PCM
cache becomes an explicit association list from path to byte contents.
-/

/-- Python exception kinds raised by the cache layer. -/
inductive PyErr where
  | valueError
  | notImplementedError
  | runtimeError
deriving Repr, DecidableEq

/-- Character class [A-Za-z0-9_-] of the video-id group in _YT_ID_RE. -/
def isIdChar (c : Char) : Bool := c.isAlphanum || c == '_' || c == '-'

/-- Match a literal at the head of the input, returning the remainder. -/
def dropLit (lit cs : List Char) : Option (List Char) :=
  if lit.isPrefixOf cs then some (cs.drop lit.length) else none

/-- Match the id group [A-Za-z0-9_-]{11} followed by .* (which never
fails): exactly eleven id characters must be next. -/
def takeVideoId (cs : List Char) : Option String :=
  let vid := cs.take 11
  if vid.length = 11 && vid.all isIdChar then some (String.mk vid) else none

/-- Match the optional scheme (?:https?://)? of _YT_ID_RE; written out,
https:// is tried before http://, and neither alternative can overlap with
the host alternatives that follow, so the optional group is deterministic. -/
def stripScheme (cs : List Char) : List Char :=
  match dropLit "https://".toList cs with
  | some r => r
  | none =>
    match dropLit "http://".toList cs with
    | some r => r
    | none => cs

/-- Match the optional (?:(?:www|music)\.)? host part. -/
def stripWww (cs : List Char) : List Char :=
  match dropLit "www.".toList cs with
  | some r => r
  | none =>
    match dropLit "music.".toList cs with
    | some r => r
    | none => cs

/-- Length of the input up to the first newline: the dot of the regex does
not match a newline, so the .* inside watch\?(?:.*&)?v= can only reach an
ampersand before the first newline. -/
def firstNewline (cs : List Char) : Nat :=
  (cs.takeWhile (fun c => c ≠ '\n')).length

/-- Ampersand positions reachable by the greedy .*, longest match first. -/
def ampIndicesDesc (cs : List Char) : List Nat :=
  ((List.range (firstNewline cs)).filter (fun k => cs.getD k ' ' == '&')).reverse

/-- Match v= then the id group at the head of the input. -/
def tryVEq (cs : List Char) : Option String :=
  match dropLit "v=".toList cs with
  | some r => takeVideoId r
  | none => none

/-- Match (?:.*&)?v= plus the id group against the text after watch?.
Backtracking order of the Python engine: the greedy optional group tries
each ampersand from the rightmost one down, then is skipped. -/
def watchIdMatch (cs : List Char) : Option String :=
  match (ampIndicesDesc cs).filterMap (fun k => tryVEq (cs.drop (k + 1))) with
  | vid :: _ => some vid
  | [] => tryVEq cs

/-- The _YT_ID_RE match of utils.py lines 55-72: video id extracted from a
YouTube watch / embed / shorts / youtu.be URL, none when the regex fails.
All branch literals are mutually non-overlapping, so the alternation is
deterministic; only the (?:.*&)? group needs backtracking. -/
def ytIdExtract (url : String) : Option String :=
  let cs := stripWww (stripScheme url.toList)
  match dropLit "youtube.com/".toList cs with
  | some rest =>
    match dropLit "watch?".toList rest with
    | some r => watchIdMatch r
    | none =>
      match dropLit "embed/".toList rest with
      | some r => takeVideoId r
      | none =>
        match dropLit "shorts/".toList rest with
        | some r => takeVideoId r
        | none => none
  | none =>
    match dropLit "youtu.be/".toList cs with
    | some r => takeVideoId r
    | none => none

/-- get_video_id (utils.py lines 168-175): the extracted id, or ValueError
when the regex does not match. -/
def get_video_id (url : String) : Except PyErr String :=
  match ytIdExtract url with
  | some vid => Except.ok vid
  | none => Except.error PyErr.valueError

/-- The resolved audio_cache_dir (utils.py line 28), as a plain string. -/
def audio_cache_dir : String := "audio_cache/cached"

/-- get_cache_path (utils.py lines 178-183).  The base falls back to the
slash-mangled url only when the id is empty, which never happens for a
successful match (ids have eleven characters); kept for fidelity. -/
def get_cache_path (url : String) (sample_rate channels : Nat) :
    Except PyErr String :=
  match get_video_id url with
  | Except.error e => Except.error e
  | Except.ok vid =>
    let base := if vid = "" then url.replace "/" "_" else vid
    Except.ok (audio_cache_dir ++ "/" ++ base ++ "_" ++ toString sample_rate
      ++ "Hz_" ++ toString channels ++ "ch.pcm")

/-- The on-disk cache: an association list from path to file bytes. -/
abbrev FS := List (String × List Nat)

def fsExists (fs : FS) (p : String) : Bool := fs.any (fun e => e.1 == p)

def fsRead (fs : FS) (p : String) : Option (List Nat) :=
  (fs.find? (fun e => e.1 == p)).map (fun e => e.2)

def fsRemove (fs : FS) (p : String) : FS := fs.filter (fun e => e.1 != p)

/-- get_audio_pcm (utils.py lines 208-217): ValueError propagates from
get_cache_path before the existence check can return None. -/
def get_audio_pcm (fs : FS) (url : String) (sample_rate channels : Nat) :
    Except PyErr (Option (List Nat)) :=
  match get_cache_path url sample_rate channels with
  | Except.error e => Except.error e
  | Except.ok path =>
    match fsRead fs path with
    | none => Except.ok none
    | some data => Except.ok (some data)

/-- remove_audio_pcm (utils.py lines 220-230): ValueError propagates from
get_cache_path before the existence check can return False. -/
def remove_audio_pcm (fs : FS) (url : String) (sample_rate channels : Nat) :
    Except PyErr (Bool × FS) :=
  match get_cache_path url sample_rate channels with
  | Except.error e => Except.error e
  | Except.ok path =>
    if fsExists fs path then Except.ok (true, fsRemove fs path)
    else Except.ok (false, fs)

/-- Behaviour of the external downloader and transcoder subprocesses:
whether yt-dlp produces the opus file, whether ffmpeg exits zero, and the
bytes the transcode writes for a given url and PCM profile. -/
structure DownloadEnv where
  downloadOk : Bool
  convertOk : Bool
  pcmData : String → Nat → Nat → List Nat

/-- Result of one fetch_audio_pcm call: the returned path or raised error,
the cache state afterwards, and how many yt-dlp download invocations the
call performed. -/
structure FetchOut where
  result : Except PyErr String
  fs : FS
  downloads : Nat
deriving Repr, DecidableEq

/-- Python truthiness of an optional string (if username or password). -/
def pyTruthy : Option String → Bool
  | some s => s != ""
  | none => false

/-- fetch_audio_pcm (audio.py lines 100-133) in a sequential model: the
cache fast path, the per-url lock with its double-checked re-check (in a
sequential run the second check sees the same state), then _download_opus
(audio.py lines 141-181, whose first statement is the credentials guard
raising NotImplementedError), the ffmpeg transcode, and the atomic move of
the result into the cache.  The concurrent metadata fetch touches only the
separate metadata cache and is modelled as succeeding. -/
def fetch_audio_pcm (env : DownloadEnv) (fs : FS) (url : String)
    (sample_rate channels : Nat) (username password : Option String) :
    FetchOut :=
  match get_cache_path url sample_rate channels with
  | Except.error e => ⟨Except.error e, fs, 0⟩
  | Except.ok cache_path =>
    if fsExists fs cache_path then ⟨Except.ok cache_path, fs, 0⟩
    else if fsExists fs cache_path then ⟨Except.ok cache_path, fs, 0⟩
    else if pyTruthy username || pyTruthy password then
      ⟨Except.error PyErr.notImplementedError, fs, 0⟩
    else if !env.downloadOk then ⟨Except.error PyErr.runtimeError, fs, 1⟩
    else if !env.convertOk then ⟨Except.error PyErr.runtimeError, fs, 1⟩
    else
      ⟨Except.ok cache_path,
       (cache_path, env.pcmData url sample_rate channels) :: fs, 1⟩

/-- Fixture: subprocess environment in which both the downloader and the
transcoder succeed and transcoding produces an empty byte sequence. -/
def fetchEnvOk : DownloadEnv := ⟨true, true, fun _ _ _ => []⟩

/-- Fixture: a cacheable watch URL. -/
def authUrl : String := "https://www.youtube.com/watch?v=abcdefghijk"

/-- Fixture: the cache path of authUrl at 48000 Hz stereo. -/
def authPath : String := "audio_cache/cached/abcdefghijk_48000Hz_2ch.pcm"

/-- Fixture: a cache that already holds the PCM for authUrl. -/
def authFS : FS := [(authPath, [7])]

end YoutubeUtils

namespace YoutubeJobs

open YoutubeUtils

/-!
Embedding of _maybe_preload_next_tracks from
src/balaambot/schedulers/youtube_jobs.py (lines 50-76).
-/

/-- QUEUE_FORESIGHT (youtube_jobs.py line 18). -/
def QUEUE_FORESIGHT : Nat := 3

/-- Behaviour of download_and_convert run in the executor: which urls make
it raise, and the bytes it writes on success. -/
structure WorkerEnv where
  fails : String → Bool
  pcmData : String → Nat → Nat → List Nat

/-- Result of one _maybe_preload_next_tracks call: the queue after the call
(the source reads queue[1 : foresight + 1] and never writes to the list),
the cache afterwards, the urls whose download raised (logged, nothing
else), and the urls downloaded. -/
structure PreloadResult where
  queue : List String
  fs : FS
  failed : List String
  downloaded : List String
deriving Repr, DecidableEq

/-- Loop body of _maybe_preload_next_tracks over the sliced queue: skip a
url whose cache path exists; otherwise run download_and_convert, and on an
exception only log the url and continue.  A ValueError from get_cache_path
is not caught (the try block only wraps the executor call) and propagates. -/
def preloadLoop (env : WorkerEnv) (sample_rate channels : Nat) :
    FS → List String → Except PyErr (FS × List String × List String)
  | fs, [] => Except.ok (fs, [], [])
  | fs, url :: rest =>
    match get_cache_path url sample_rate channels with
    | Except.error e => Except.error e
    | Except.ok cache_path =>
      if fsExists fs cache_path then
        preloadLoop env sample_rate channels fs rest
      else if env.fails url then
        match preloadLoop env sample_rate channels fs rest with
        | Except.error e => Except.error e
        | Except.ok (fs2, failed, dl) => Except.ok (fs2, url :: failed, dl)
      else
        match preloadLoop env sample_rate channels
            ((cache_path, env.pcmData url sample_rate channels) :: fs) rest with
        | Except.error e => Except.error e
        | Except.ok (fs2, failed, dl) => Except.ok (fs2, failed, url :: dl)

/-- _maybe_preload_next_tracks (youtube_jobs.py lines 50-76): iterates over
queue[1 : foresight + 1], skipping the currently playing head. -/
def maybe_preload_next_tracks (env : WorkerEnv) (fs : FS)
    (queue : List String) (sample_rate channels foresight : Nat) :
    Except PyErr PreloadResult :=
  match preloadLoop env sample_rate channels fs
      ((queue.drop 1).take foresight) with
  | Except.error e => Except.error e
  | Except.ok (fs2, failed, dl) => Except.ok ⟨queue, fs2, failed, dl⟩

/-- Fixture: three queued watch URLs; the head is the playing track. -/
def preloadUrl1 : String := "https://youtu.be/aaaaaaaaaaa"

def preloadUrl2 : String := "https://youtu.be/bbbbbbbbbbb"

def preloadUrl3 : String := "https://youtu.be/ccccccccccc"

def preloadQueue : List String := [preloadUrl1, preloadUrl2, preloadUrl3]

/-- Fixture: a worker for which exactly the download of preloadUrl2 raises. -/
def preloadEnv : WorkerEnv := ⟨fun u => u == preloadUrl2, fun _ _ _ => []⟩

end YoutubeJobs

/-!
## Helper lemmas
-/

namespace MultiAudioSource

/-- The final clamp of read (if/elif/else) agrees with the max/min clamp. -/
theorem outClamp_eq_clamp16 (v : Int) : outClamp v = clamp16 v := by
  simp only [outClamp, clamp16, max_def, min_def, MIN_VOLUME, MAX_VOLUME]
  split_ifs <;> omega

theorem getD_replicate (l : Nat) (v : Int) (k : Nat) :
    (List.replicate l v).getD k 0 = if k < l then v else 0 := by
  by_cases h : k < l
  · rw [if_pos h, List.getD_eq_getElem _ _ (by simpa using h),
      List.getElem_replicate]
  · rw [if_neg h, List.getD_eq_default _ _ (by simpa using h)]

theorem clamp16_of_range (v : Int) (h1 : MIN_VOLUME ≤ v) (h2 : v ≤ MAX_VOLUME) :
    clamp16 v = v := by
  rw [clamp16, min_eq_left h2, max_eq_right h1]

theorem truncQ_intCast (v : Int) : truncQ ((v : Int) : ℚ) = v := by
  rw [truncQ, Rat.num_intCast, Rat.den_intCast, Nat.cast_one, Int.tdiv_one]

theorem skipLoop_fst_map_pos (ts : List Track) :
    ((skipLoop ts).1).map Track.pos = ts.map (fun t => t.samples.length) := by
  induction ts with
  | nil => rfl
  | cons t rest ih => simp [skipLoop, ih]

theorem skipLoop_snd (ts : List Track) :
    (skipLoop ts).2 = ts.filterMap Track.afterPlay := by
  induction ts with
  | nil => rfl
  | cons t rest ih =>
    simp only [skipLoop, List.filterMap_cons]
    cases h : t.afterPlay <;> simp [h, ih]

end MultiAudioSource

/-!
## Claim theorems
-/

namespace MultiAudioSource

/-- C8: in every mixing pass, each per-sample track contribution is clamped
to the signed 16-bit range after scaling by the normalisation factor and
before being summed into the 32-bit accumulator, so no single track can
contribute a value outside int16 regardless of its factor. -/
theorem contribution_within_int16 (normalise : Bool) (t : Track) (i : Nat) :
    MIN_VOLUME ≤ contribution normalise t i ∧
    contribution normalise t i ≤ MAX_VOLUME :=
  ⟨le_max_left _ _,
   max_le (by decide) (min_le_right _ _)⟩

/-- C9: clear_tracks empties the sustained collection and always sets the
stopped flag, while clear_sfx empties the overlay collection and leaves the
stopped flag (and the sustained tracks) unchanged. -/
theorem clear_semantics (m : Mixer) :
    (clear_tracks m).tracks = [] ∧ (clear_tracks m).stopped = true ∧
    (clear_tracks m).sfx = m.sfx ∧
    (clear_sfx m).sfx = [] ∧ (clear_sfx m).stopped = m.stopped ∧
    (clear_sfx m).tracks = m.tracks :=
  ⟨rfl, rfl, rfl, rfl, rfl, rfl⟩

/-- C2 counterexample: with the mixer stopped, read returns the empty byte
string (zero samples, zero bytes), not an all-zero buffer of CHUNK_SIZE
bytes, so the claim as stated is false. -/
theorem read_stopped_returns_empty_cex :
    (read pausedMixer).1 = [] ∧
    BYTE_SIZE * (read pausedMixer).1.length ≠ CHUNK_SIZE :=
  ⟨rfl, by decide⟩

/-- C2 amended: whenever the mixer is stopped or paused, read returns the
empty byte string b"" (no samples) and leaves the mixer state untouched. -/
theorem read_stopped_returns_empty (m : Mixer) (h : m.stopped = true) :
    read m = ([], m) := by
  simp [read, h]

/-- C2 witness: the amended theorem applied to a concrete paused mixer. -/
theorem read_stopped_returns_empty_witness :
    read pausedMixer = ([], pausedMixer) :=
  read_stopped_returns_empty pausedMixer rfl

/-- C7: skip_current_tracks drains every sustained track, forcing each
cursor to len(samples), and invokes each after_play callback synchronously
in order; a raising callback is caught (it appears in the log as an error
and the remaining tracks are still processed); on an empty sustained list
the call is a no-op returning the state unchanged with no callback
invocations. -/
theorem skip_current_tracks_spec (m : Mixer) :
    (skip_current_tracks m).1 = { m with tracks := [] } ∧
    ((skip_current_tracks m).2.1).map Track.pos
      = m.tracks.map (fun t => t.samples.length) ∧
    (skip_current_tracks m).2.2 = m.tracks.filterMap Track.afterPlay ∧
    (m.tracks = [] →
      (skip_current_tracks m).1 = m ∧ (skip_current_tracks m).2.2 = []) := by
  refine ⟨rfl, skipLoop_fst_map_pos m.tracks, skipLoop_snd m.tracks, ?_⟩
  intro h
  constructor
  · cases m; simp_all [skip_current_tracks]
  · show (skipLoop m.tracks).2 = []
    rw [skipLoop_snd m.tracks, h]; rfl

/-- C7 witness: a mixer with two sustained tracks, the first of which has a
callback that raises; both tracks are drained and both callbacks were
invoked. -/
theorem skip_current_tracks_witness :
    (skip_current_tracks skipFixture).1.tracks = [] ∧
    ((skip_current_tracks skipFixture).2.1).map Track.pos = [3, 1] ∧
    (skip_current_tracks skipFixture).2.2
      = [Except.error "boom", Except.ok ()] := by
  obtain ⟨h1, h2, h3, -⟩ := skip_current_tracks_spec skipFixture
  exact ⟨by rw [h1], h2.trans (by decide), h3.trans (by decide)⟩

end MultiAudioSource

namespace MultiAudioSource

/-- C4: evaluation of the normalisation-factor computation at a silent
(all-zero) track.  Under both policies the factor becomes 0 and the final
division TARGET_VOLUME * MAX_VOLUME / factor raises ZeroDivisionError; the
computation is not guarded and never yields 1.0, contradicting the claim. -/
theorem silent_track_normalisation_divzero :
    compute_normalisation_factor "max" [0, 0, 0, 0]
      = Except.error NormError.zeroDivision ∧
    compute_normalisation_factor "std_dev" [0, 0, 0, 0]
      = Except.error NormError.zeroDivision := by
  have hne : "std_dev" ≠ "max" := by decide
  constructor <;>
    norm_num [compute_normalisation_factor, sqrtQ, List.max?, hne]

end MultiAudioSource

namespace YoutubeUtils

/-- C10: every cache operation taking a source URL propagates the
ValueError of get_video_id for a URL from which no 11-character video id
can be extracted; none of them reaches its None or False return path. -/
theorem invalid_url_raises_value_error (url : String)
    (h : ytIdExtract url = none) (fs : FS) (env : DownloadEnv)
    (sr ch : Nat) (u p : Option String) :
    get_video_id url = Except.error PyErr.valueError ∧
    get_cache_path url sr ch = Except.error PyErr.valueError ∧
    get_audio_pcm fs url sr ch = Except.error PyErr.valueError ∧
    remove_audio_pcm fs url sr ch = Except.error PyErr.valueError ∧
    (fetch_audio_pcm env fs url sr ch u p).result
      = Except.error PyErr.valueError := by
  have hv : get_video_id url = Except.error PyErr.valueError := by
    simp [get_video_id, h]
  have hc : get_cache_path url sr ch = Except.error PyErr.valueError := by
    simp [get_cache_path, hv]
  refine ⟨hv, hc, ?_, ?_, ?_⟩ <;>
    simp [get_audio_pcm, remove_audio_pcm, fetch_audio_pcm, hc]

/-- C10 witness: the theorem applied to a URL that matches no YouTube
pattern. -/
theorem invalid_url_raises_value_error_witness :
    get_video_id "notaurl" = Except.error PyErr.valueError ∧
    get_cache_path "notaurl" 48000 2 = Except.error PyErr.valueError ∧
    get_audio_pcm [] "notaurl" 48000 2 = Except.error PyErr.valueError ∧
    remove_audio_pcm [] "notaurl" 48000 2 = Except.error PyErr.valueError ∧
    (fetch_audio_pcm fetchEnvOk [] "notaurl" 48000 2 none none).result
      = Except.error PyErr.valueError :=
  invalid_url_raises_value_error "notaurl" rfl [] fetchEnvOk 48000 2 none none

/-- C5 counterexample: with credentials supplied but the cache entry
already on disk, fetch_audio_pcm returns the cached path from the fast
path and raises nothing, so the claim that it fails first is false. -/
theorem fetch_auth_cached_cex :
    (fetch_audio_pcm fetchEnvOk authFS authUrl 48000 2
        (some "user") none).result = Except.ok authPath ∧
    (fetch_audio_pcm fetchEnvOk authFS authUrl 48000 2
        (some "user") none).result
      ≠ Except.error PyErr.notImplementedError := by
  constructor
  · rfl
  · intro hh
    simp [fetch_audio_pcm, show get_cache_path authUrl 48000 2
      = Except.ok authPath from rfl,
      show fsExists authFS authPath = true from rfl] at hh

/-- C5 amended: a fetch with a truthy username or password raises
NotImplementedError precisely when the cache misses (the credentials guard
is the first step of the download, not of the fetch); on a cache hit the
credentials are ignored and the cached path is returned. -/
theorem fetch_auth_guard (env : DownloadEnv) (fs : FS) (url path : String)
    (sr ch : Nat) (u p : Option String)
    (hpath : get_cache_path url sr ch = Except.ok path)
    (hcred : (pyTruthy u || pyTruthy p) = true) :
    (fsExists fs path = false →
      fetch_audio_pcm env fs url sr ch u p
        = ⟨Except.error PyErr.notImplementedError, fs, 0⟩) ∧
    (fsExists fs path = true →
      fetch_audio_pcm env fs url sr ch u p = ⟨Except.ok path, fs, 0⟩) := by
  constructor <;> intro hex <;> simp [fetch_audio_pcm, hpath, hex, hcred]

/-- C5 witness: the amended theorem at a concrete URL, once with an empty
cache (NotImplementedError) and once with the entry present (cached path
returned). -/
theorem fetch_auth_guard_witness :
    fetch_audio_pcm fetchEnvOk [] authUrl 48000 2 (some "user") none
      = ⟨Except.error PyErr.notImplementedError, [], 0⟩ ∧
    fetch_audio_pcm fetchEnvOk authFS authUrl 48000 2 (some "user") none
      = ⟨Except.ok authPath, authFS, 0⟩ :=
  ⟨(fetch_auth_guard fetchEnvOk [] authUrl authPath 48000 2
      (some "user") none rfl rfl).1 rfl,
   (fetch_auth_guard fetchEnvOk authFS authUrl authPath 48000 2
      (some "user") none rfl rfl).2 rfl⟩

/-- C3: fetching the same (url, rate, channels) twice in sequence, starting
from a cache miss with working subprocesses and no credentials, performs
exactly one download in total (the second call takes the cache-hit fast
path) and both calls return the identical cache path. -/
theorem fetch_idempotent (env : DownloadEnv) (fs0 : FS) (url path : String)
    (sr ch : Nat)
    (hpath : get_cache_path url sr ch = Except.ok path)
    (hmiss : fsExists fs0 path = false)
    (hdl : env.downloadOk = true) (hcv : env.convertOk = true) :
    (fetch_audio_pcm env fs0 url sr ch none none).result = Except.ok path ∧
    (fetch_audio_pcm env (fetch_audio_pcm env fs0 url sr ch none none).fs
        url sr ch none none).result = Except.ok path ∧
    (fetch_audio_pcm env fs0 url sr ch none none).downloads
      + (fetch_audio_pcm env (fetch_audio_pcm env fs0 url sr ch none none).fs
          url sr ch none none).downloads = 1 := by
  have h1 : fetch_audio_pcm env fs0 url sr ch none none
      = ⟨Except.ok path, (path, env.pcmData url sr ch) :: fs0, 1⟩ := by
    simp [fetch_audio_pcm, hpath, hmiss, hdl, hcv, pyTruthy]
  have hfs : (fetch_audio_pcm env fs0 url sr ch none none).fs
      = (path, env.pcmData url sr ch) :: fs0 := by rw [h1]
  have hex2 : fsExists ((path, env.pcmData url sr ch) :: fs0) path = true := by
    simp [fsExists]
  have h2 : fetch_audio_pcm env ((path, env.pcmData url sr ch) :: fs0)
      url sr ch none none
      = ⟨Except.ok path, (path, env.pcmData url sr ch) :: fs0, 0⟩ := by
    simp [fetch_audio_pcm, hpath, hex2]
  refine ⟨by rw [h1], by rw [hfs, h2], ?_⟩
  have hd1 : (fetch_audio_pcm env fs0 url sr ch none none).downloads = 1 := by
    rw [h1]
  have hd2 : (fetch_audio_pcm env
      (fetch_audio_pcm env fs0 url sr ch none none).fs
      url sr ch none none).downloads = 0 := by rw [hfs, h2]
  rw [hd1, hd2]

/-- C3 witness: the theorem at a concrete watch URL starting from an empty
cache. -/
theorem fetch_idempotent_witness :
    (fetch_audio_pcm fetchEnvOk [] authUrl 48000 2 none none).result
      = Except.ok authPath ∧
    (fetch_audio_pcm fetchEnvOk
        (fetch_audio_pcm fetchEnvOk [] authUrl 48000 2 none none).fs
        authUrl 48000 2 none none).result = Except.ok authPath ∧
    (fetch_audio_pcm fetchEnvOk [] authUrl 48000 2 none none).downloads
      + (fetch_audio_pcm fetchEnvOk
          (fetch_audio_pcm fetchEnvOk [] authUrl 48000 2 none none).fs
          authUrl 48000 2 none none).downloads = 1 :=
  fetch_idempotent fetchEnvOk [] authUrl authPath 48000 2 rfl rfl rfl rfl

end YoutubeUtils

namespace YoutubeJobs

/-- C6: evaluation of _maybe_preload_next_tracks at a queue whose second
entry fails to download.  The failing URL is only logged: the queue after
the call still contains it unchanged (the source never mutates the queue),
while the remaining URL is still prefetched.  The claim (and the projects
own test suite, test_maybe_preload_download_and_remove_on_failure) expects
the failing URL to be removed from the queue. -/
theorem preload_failure_leaves_queue :
    maybe_preload_next_tracks preloadEnv [] preloadQueue 48000 2
        QUEUE_FORESIGHT
      = Except.ok ⟨preloadQueue,
          [("audio_cache/cached/ccccccccccc_48000Hz_2ch.pcm", [])],
          [preloadUrl2], [preloadUrl3]⟩ := by
  rfl

end YoutubeJobs

namespace MultiAudioSource

theorem getD_range_map (f : Nat → Int) (n k : Nat) (hk : k < n) :
    ((List.range n).map f).getD k 0 = f k := by
  rw [List.getD_eq_getElem _ _ (by simpa using hk)]
  simp

theorem sum_if_filter (k : Nat) (tvs : List (Int × Nat)) :
    (tvs.map (fun p => if k < p.2 then p.1 else 0)).sum
      = ((tvs.filter (fun p => k < p.2)).map Prod.fst).sum := by
  induction tvs with
  | nil => rfl
  | cons q rest ih =>
    by_cases h : k < q.2 <;> simp [List.filter_cons, h, ih]

theorem contribution_constTrack (v : Int) (l : Nat) (k : Nat)
    (h1 : MIN_VOLUME ≤ v) (h2 : v ≤ MAX_VOLUME) :
    contribution false (constTrack v l) k = if k < l then v else 0 := by
  have hpad : paddedSample (constTrack v l) k = (List.replicate l v).getD k 0 := by
    simp [paddedSample, constTrack]
  rw [contribution, show effFactor false (constTrack v l) = 1 from rfl,
    mul_one, hpad, getD_replicate]
  by_cases h : k < l
  · rw [if_pos h, truncQ_intCast, clamp16_of_range v h1 h2]
  · rw [if_neg h, truncQ_intCast, clamp16_of_range 0 (by decide) (by decide)]

/-- C1: for tracks of constant values v_i and lengths l_i, all with
effective normalisation factor 1, the k-th int16 sample of an unpaused read
is clamp(sum of v_i over the tracks with k < l_i, INT16_MIN, INT16_MAX).
The hypothesis on the track count keeps every partial sum of the int32
accumulator in range (beyond it the Python array would raise
OverflowError instead of returning a chunk). -/
theorem mixing_sum (tvs : List (Int × Nat)) (k : Nat) (hk : k < chunkSamples)
    (hrange : ∀ p ∈ tvs, MIN_VOLUME ≤ p.1 ∧ p.1 ≤ MAX_VOLUME)
    (hcount : tvs.length ≤ 65535) :
    ((read (constMixer tvs)).1).getD k 0
      = clamp16 (((tvs.filter (fun p => k < p.2)).map Prod.fst).sum) := by
  have hread : (read (constMixer tvs)).1
      = (List.range chunkSamples).map
          (fun i => outClamp (mixTotal (constMixer tvs) i)) := by
    simp [read, constMixer]
  have hmix : mixTotal (constMixer tvs) k
      = (tvs.map (fun p => if k < p.2 then p.1 else 0)).sum := by
    simp only [mixTotal, constMixer, List.append_nil, List.map_map]
    congr 1
    apply List.map_congr_left
    intro p hp
    simp only [Function.comp_apply]
    exact contribution_constTrack p.1 p.2 k (hrange p hp).1 (hrange p hp).2
  rw [hread, getD_range_map _ _ _ hk, outClamp_eq_clamp16, hmix,
    sum_if_filter]

/-- C1 witness: two constant tracks (value 100 for 1000 samples, value 50
for 2000 samples); sample 0 of the first chunk is 100 + 50 = 150. -/
theorem mixing_sum_witness :
    ((read (constMixer [(100, 1000), (50, 2000)])).1).getD 0 0 = 150 :=
  (mixing_sum [(100, 1000), (50, 2000)] 0 (by decide) (by decide)
    (by decide)).trans (by decide)

end MultiAudioSource
